import Mathlib

/-!
Shallow embedding of the OPTRefactor pipeline (classifier, style resolver,
text sanitiser, document assembler) and proofs of the specification claims.

Source files embedded:
  * `opt_refactor/classifier.py` — `Classification`, `_RULES`, `classify`
  * `opt_refactor/styles.py` — `rgb_to_kml`, `FeatureStyle`, `_STYLES`,
    `get_style`, `style_id`
  * `opt_refactor/generator.py` — `_sanitise_text`, `_build_description`,
    `_build_placemark`, `_build_style_element`, `generate_styled_kml`

Python dicts are modelled as association lists (`List (κ × ν)`) looked up
with `List.lookup`; Python string → `String`; Python float constants in the
style palette → `ℚ` (only stored, never computed with); the lxml geometry
element is an opaque payload handle (`Nat`) copied verbatim.
-/

namespace OPTRefactor

/-! ## classifier.py -/

/-- Result of classifying a single feature (`Classification` dataclass). -/
structure Classification where
  category : String
  subcategory : String
deriving DecidableEq, Repr

/-- One rule of the classifier table:
`(osm_key, set_of_values | None, category, subcategory)`.
A `none` value set means "any value for that key matches". -/
structure Rule where
  key : String
  values : Option (List String)
  category : String
  subcategory : String
deriving DecidableEq, Repr

set_option maxHeartbeats 2000000 in
/-- The ordered rule table `_RULES` from `classifier.py`.
Rules are checked top-to-bottom; first match wins. -/
def RULES : List Rule := [
  -- Roads (ordered by hierarchy)
  ⟨"highway", some ["motorway", "motorway_link"], "road", "motorway"⟩,
  ⟨"highway", some ["trunk", "trunk_link"], "road", "trunk"⟩,
  ⟨"highway", some ["primary", "primary_link"], "road", "primary"⟩,
  ⟨"highway", some ["secondary", "secondary_link"], "road", "secondary"⟩,
  ⟨"highway", some ["tertiary", "tertiary_link"], "road", "tertiary"⟩,
  ⟨"highway", some ["residential", "living_street"], "road", "residential"⟩,
  ⟨"highway", some ["service"], "road", "service"⟩,
  ⟨"highway", some ["unclassified"], "road", "unclassified"⟩,
  ⟨"highway", some ["footway", "pedestrian", "path", "steps"], "road", "footway"⟩,
  ⟨"highway", some ["cycleway"], "road", "cycleway"⟩,
  ⟨"highway", some ["track"], "road", "track"⟩,
  ⟨"highway", none, "road", "other"⟩,
  -- Railways
  ⟨"railway", some ["rail", "light_rail", "narrow_gauge"], "railway", "rail"⟩,
  ⟨"railway", some ["subway"], "railway", "subway"⟩,
  ⟨"railway", some ["tram"], "railway", "tram"⟩,
  ⟨"railway", some ["station", "halt"], "railway", "station"⟩,
  ⟨"railway", none, "railway", "other"⟩,
  -- Water
  ⟨"waterway", some ["river", "canal"], "water", "river"⟩,
  ⟨"waterway", some ["stream", "drain", "ditch"], "water", "stream"⟩,
  ⟨"waterway", none, "water", "waterway"⟩,
  ⟨"natural", some ["water"], "water", "lake"⟩,
  ⟨"water", none, "water", "lake"⟩,
  -- Buildings
  ⟨"building", some ["church", "cathedral", "chapel", "mosque", "temple", "synagogue"], "building", "worship"⟩,
  ⟨"building", some ["school", "university", "college", "kindergarten"], "building", "education"⟩,
  ⟨"building", some ["hospital"], "building", "hospital"⟩,
  ⟨"building", some ["commercial", "retail", "office"], "building", "commercial"⟩,
  ⟨"building", some ["industrial", "warehouse"], "building", "industrial"⟩,
  ⟨"building", none, "building", "general"⟩,
  -- Parks and green spaces
  ⟨"leisure", some ["park", "garden"], "green", "park"⟩,
  ⟨"leisure", some ["nature_reserve"], "green", "nature_reserve"⟩,
  ⟨"leisure", some ["playground"], "green", "playground"⟩,
  ⟨"leisure", some ["pitch", "sports_centre", "stadium"], "sport", "facility"⟩,
  ⟨"boundary", some ["national_park", "protected_area"], "green", "protected"⟩,
  ⟨"landuse", some ["forest"], "green", "forest"⟩,
  ⟨"landuse", some ["grass", "meadow", "village_green"], "green", "grass"⟩,
  ⟨"landuse", some ["orchard", "vineyard", "allotments"], "green", "agriculture"⟩,
  ⟨"natural", some ["wood"], "green", "forest"⟩,
  ⟨"natural", some ["scrub", "heath", "grassland"], "green", "scrub"⟩,
  -- Land use
  ⟨"landuse", some ["residential"], "landuse", "residential"⟩,
  ⟨"landuse", some ["commercial", "retail"], "landuse", "commercial"⟩,
  ⟨"landuse", some ["industrial"], "landuse", "industrial"⟩,
  ⟨"landuse", some ["farmland", "farmyard"], "landuse", "farmland"⟩,
  ⟨"landuse", some ["cemetery"], "landuse", "cemetery"⟩,
  ⟨"landuse", some ["military"], "landuse", "military"⟩,
  ⟨"landuse", none, "landuse", "other"⟩,
  -- Amenities
  ⟨"amenity", some ["restaurant", "cafe", "fast_food", "bar", "pub", "food_court"], "amenity", "food"⟩,
  ⟨"amenity", some ["school", "university", "college", "kindergarten", "library"], "amenity", "education"⟩,
  ⟨"amenity", some ["hospital", "clinic", "doctors", "dentist", "pharmacy"], "amenity", "health"⟩,
  ⟨"amenity", some ["parking", "fuel", "charging_station"], "amenity", "transport"⟩,
  ⟨"amenity", some ["police", "fire_station"], "amenity", "emergency"⟩,
  ⟨"amenity", some ["place_of_worship"], "amenity", "worship"⟩,
  ⟨"amenity", some ["bank", "atm"], "amenity", "finance"⟩,
  ⟨"amenity", none, "amenity", "other"⟩,
  -- Tourism
  ⟨"tourism", some ["hotel", "motel", "hostel", "guest_house"], "tourism", "accommodation"⟩,
  ⟨"tourism", some ["museum", "gallery", "artwork"], "tourism", "culture"⟩,
  ⟨"tourism", some ["viewpoint"], "tourism", "viewpoint"⟩,
  ⟨"tourism", some ["camp_site", "caravan_site"], "tourism", "camping"⟩,
  ⟨"tourism", none, "tourism", "other"⟩,
  -- Shops
  ⟨"shop", some ["supermarket", "convenience"], "shop", "grocery"⟩,
  ⟨"shop", none, "shop", "other"⟩,
  -- Power / Utilities
  ⟨"power", some ["line", "minor_line"], "utility", "power_line"⟩,
  ⟨"power", some ["tower", "pole"], "utility", "power_tower"⟩,
  ⟨"power", some ["plant", "generator", "substation"], "utility", "power_facility"⟩,
  ⟨"power", none, "utility", "power"⟩,
  ⟨"man_made", some ["pipeline"], "utility", "pipeline"⟩,
  ⟨"man_made", some ["water_tower", "tower", "mast"], "utility", "tower"⟩,
  -- Barriers
  ⟨"barrier", some ["fence", "wall"], "barrier", "linear"⟩,
  ⟨"barrier", some ["gate", "bollard", "lift_gate"], "barrier", "access"⟩,
  ⟨"barrier", none, "barrier", "other"⟩,
  -- Aeroway
  ⟨"aeroway", some ["runway", "taxiway"], "aeroway", "runway"⟩,
  ⟨"aeroway", some ["terminal", "gate"], "aeroway", "terminal"⟩,
  ⟨"aeroway", none, "aeroway", "other"⟩,
  -- Natural features (catch-all after water/green)
  ⟨"natural", some ["peak", "volcano"], "natural", "peak"⟩,
  ⟨"natural", some ["cliff"], "natural", "cliff"⟩,
  ⟨"natural", some ["beach"], "natural", "beach"⟩,
  ⟨"natural", some ["tree"], "natural", "tree"⟩,
  ⟨"natural", none, "natural", "other"⟩,
  -- Administrative boundaries
  ⟨"boundary", some ["administrative"], "boundary", "administrative"⟩,
  ⟨"boundary", none, "boundary", "other"⟩,
  -- Public transport
  ⟨"public_transport", some ["station", "stop_position", "platform"], "transport", "stop"⟩,
  ⟨"public_transport", none, "transport", "other"⟩]

/-- `_DEFAULT`: default for features that match no rule. -/
def DEFAULT : Classification := ⟨"other", "unknown"⟩

/-- Tag mapping of a feature: string-keyed, string-valued. -/
abbrev Tags := List (String × String)

/-- The loop body of `classify`: scan rules top to bottom; skip a rule whose
key is absent from the tags; on a present key return the rule's
classification when its value set is the wildcard (`none`) or contains the
tag's value; otherwise continue. -/
def classifyLoop (tags : Tags) : List Rule → Classification
  | [] => DEFAULT
  | r :: rest =>
    match List.lookup r.key tags with
    | none => classifyLoop tags rest
    | some tag_val =>
      match r.values with
      | none => ⟨r.category, r.subcategory⟩
      | some vs => if tag_val ∈ vs then ⟨r.category, r.subcategory⟩ else classifyLoop tags rest

/-- `classify` from `classifier.py`, applied to a feature's tag mapping. -/
def classify (tags : Tags) : Classification := classifyLoop tags RULES

/-- Spec-side predicate: a rule matches a tag mapping when its key is present
and its value set is the wildcard or contains the tag's value. -/
def ruleMatches (tags : Tags) (r : Rule) : Bool :=
  match List.lookup r.key tags with
  | none => false
  | some tag_val =>
    match r.values with
    | none => true
    | some vs => vs.contains tag_val

/-! ## styles.py -/

/-- `rgb_to_kml`: convert `#RRGGBB` or `RRGGBB` to KML `aabbggrr`.
The Python default `alpha="ff"` is passed explicitly at every call site. -/
def rgb_to_kml (hex_rgb alpha : String) : String :=
  let h := String.mk (hex_rgb.data.dropWhile (fun c => c == '#'))
  let r := String.mk (h.data.take 2)
  let g := String.mk ((h.data.drop 2).take 2)
  let b := String.mk ((h.data.drop 4).take 2)
  alpha ++ b ++ g ++ r

/-- A Python one-decimal float literal: `pyDec i f` is the exact rational
`i.f` (e.g. `pyDec 4 5` for `4.5`). Written via `mkRat` so that equality of
styles is kernel-decidable. -/
def pyDec (i f : Nat) : ℚ := mkRat (i * 10 + f) 10

/-- `FeatureStyle` dataclass: visual style to apply to a KML feature.
Float constants are modelled as exact rationals. -/
structure FeatureStyle where
  line_color : String
  line_width : ℚ := pyDec 2 0
  poly_color : String := ""
  poly_fill : Bool := true
  poly_outline : Bool := true
  icon_href : String := ""
  icon_scale : ℚ := pyDec 1 0
  label_color : String := "ffffffff"
  label_scale : ℚ := pyDec 0 8
deriving DecidableEq, Repr

/-- Google Earth built-in icon base URL (`_GICON`). -/
def GICON : String := "http://maps.google.com/mapfiles/kml"

def ICON_CIRCLE : String := GICON ++ "/shapes/placemark_circle.png"

def ICON_SQUARE : String := GICON ++ "/shapes/placemark_square.png"

def ICON_STAR : String := GICON ++ "/shapes/star.png"

def ICON_TRIANGLE : String := GICON ++ "/shapes/triangle.png"

def ICON_DINING : String := GICON ++ "/shapes/dining.png"

def ICON_SCHOOLS : String := GICON ++ "/paddle/grn-blank.png"

def ICON_HOSPITAL : String := GICON ++ "/paddle/red-circle.png"

def ICON_PARKING : String := GICON ++ "/paddle/blu-blank.png"

def ICON_POLICE : String := GICON ++ "/paddle/blu-circle.png"

def ICON_WORSHIP : String := GICON ++ "/paddle/purple-blank.png"

def ICON_HOTEL : String := GICON ++ "/paddle/ylw-blank.png"

def ICON_MUSEUM : String := GICON ++ "/paddle/pink-blank.png"

def ICON_VIEWPOINT : String := GICON ++ "/shapes/camera.png"

def ICON_CAMPING : String := GICON ++ "/paddle/grn-circle.png"

def ICON_SHOP : String := GICON ++ "/paddle/wht-blank.png"

def ICON_TREE : String := GICON ++ "/shapes/parks.png"

def ICON_PEAK : String := GICON ++ "/shapes/mountains.png"

def ICON_RAIL_STATION : String := GICON ++ "/shapes/rail.png"

def ICON_BUS : String := GICON ++ "/shapes/bus.png"

def ICON_DEFAULT : String := GICON ++ "/paddle/wht-circle.png"

set_option maxHeartbeats 4000000 in
/-- The style palette `_STYLES`, keyed by (category, subcategory), with
wildcard entries `(category, "*")` and the universal default `("other", "*")`.
Modelled as an association list with the dict's (unique-keyed) entries in
source order. -/
def STYLES : List ((String × String) × FeatureStyle) := [
  -- Roads
  (("road", "motorway"), { line_color := rgb_to_kml "#E74C3C" "ff", line_width := pyDec 5 0 }),
  (("road", "trunk"), { line_color := rgb_to_kml "#E67E22" "ff", line_width := pyDec 4 5 }),
  (("road", "primary"), { line_color := rgb_to_kml "#F39C12" "ff", line_width := pyDec 4 0 }),
  (("road", "secondary"), { line_color := rgb_to_kml "#F1C40F" "ff", line_width := pyDec 3 5 }),
  (("road", "tertiary"), { line_color := rgb_to_kml "#FFFFFF" "ff", line_width := pyDec 3 0 }),
  (("road", "residential"), { line_color := rgb_to_kml "#BDC3C7" "ff", line_width := pyDec 2 5 }),
  (("road", "service"), { line_color := rgb_to_kml "#95A5A6" "ff", line_width := pyDec 2 0 }),
  (("road", "unclassified"), { line_color := rgb_to_kml "#BDC3C7" "ff", line_width := pyDec 2 0 }),
  (("road", "footway"), { line_color := rgb_to_kml "#E88DB4" "ff", line_width := pyDec 1 5 }),
  (("road", "cycleway"), { line_color := rgb_to_kml "#2980B9" "ff", line_width := pyDec 2 0 }),
  (("road", "track"), { line_color := rgb_to_kml "#8B6914" "ff", line_width := pyDec 1 5 }),
  (("road", "*"), { line_color := rgb_to_kml "#CCCCCC" "ff", line_width := pyDec 2 0 }),
  -- Railways
  (("railway", "rail"), { line_color := rgb_to_kml "#2C3E50" "ff", line_width := pyDec 3 0, icon_href := ICON_RAIL_STATION }),
  (("railway", "subway"), { line_color := rgb_to_kml "#8E44AD" "ff", line_width := pyDec 3 0, icon_href := ICON_RAIL_STATION }),
  (("railway", "tram"), { line_color := rgb_to_kml "#C0392B" "ff", line_width := pyDec 2 0, icon_href := ICON_RAIL_STATION }),
  (("railway", "station"), { line_color := rgb_to_kml "#2C3E50" "ff", line_width := pyDec 2 0, icon_href := ICON_RAIL_STATION, icon_scale := pyDec 1 2 }),
  (("railway", "*"), { line_color := rgb_to_kml "#2C3E50" "ff", line_width := pyDec 2 0, icon_href := ICON_RAIL_STATION }),
  -- Water
  (("water", "river"), { line_color := rgb_to_kml "#2980B9" "ff", line_width := pyDec 3 5, poly_color := rgb_to_kml "#3498DB" "80" }),
  (("water", "stream"), { line_color := rgb_to_kml "#5DADE2" "ff", line_width := pyDec 2 0 }),
  (("water", "lake"), { line_color := rgb_to_kml "#2471A3" "ff", line_width := pyDec 2 0, poly_color := rgb_to_kml "#3498DB" "80" }),
  (("water", "*"), { line_color := rgb_to_kml "#2980B9" "ff", line_width := pyDec 2 0, poly_color := rgb_to_kml "#3498DB" "80" }),
  -- Buildings
  (("building", "worship"), { line_color := rgb_to_kml "#8E44AD" "ff", line_width := pyDec 1 5, poly_color := rgb_to_kml "#D2B4DE" "90", icon_href := ICON_WORSHIP }),
  (("building", "education"), { line_color := rgb_to_kml "#27AE60" "ff", line_width := pyDec 1 5, poly_color := rgb_to_kml "#A9DFBF" "90", icon_href := ICON_SCHOOLS }),
  (("building", "hospital"), { line_color := rgb_to_kml "#E74C3C" "ff", line_width := pyDec 1 5, poly_color := rgb_to_kml "#F5B7B1" "90", icon_href := ICON_HOSPITAL }),
  (("building", "commercial"), { line_color := rgb_to_kml "#2980B9" "ff", line_width := pyDec 1 5, poly_color := rgb_to_kml "#AED6F1" "90" }),
  (("building", "industrial"), { line_color := rgb_to_kml "#7F8C8D" "ff", line_width := pyDec 1 5, poly_color := rgb_to_kml "#D5D8DC" "90" }),
  (("building", "*"), { line_color := rgb_to_kml "#B0703C" "ff", line_width := pyDec 1 0, poly_color := rgb_to_kml "#E8C9A0" "90" }),
  -- Green spaces
  (("green", "park"), { line_color := rgb_to_kml "#27AE60" "ff", line_width := pyDec 2 0, poly_color := rgb_to_kml "#2ECC71" "70", icon_href := ICON_TREE }),
  (("green", "forest"), { line_color := rgb_to_kml "#1E8449" "ff", line_width := pyDec 2 0, poly_color := rgb_to_kml "#196F3D" "70" }),
  (("green", "nature_reserve"), { line_color := rgb_to_kml "#1ABC9C" "ff", line_width := pyDec 2 5, poly_color := rgb_to_kml "#A3E4D7" "60" }),
  (("green", "grass"), { line_color := rgb_to_kml "#82E0AA" "ff", line_width := pyDec 1 5, poly_color := rgb_to_kml "#ABEBC6" "70" }),
  (("green", "protected"), { line_color := rgb_to_kml "#1ABC9C" "ff", line_width := pyDec 3 0, poly_color := rgb_to_kml "#A3E4D7" "50" }),
  (("green", "*"), { line_color := rgb_to_kml "#27AE60" "ff", line_width := pyDec 1 5, poly_color := rgb_to_kml "#2ECC71" "60" }),
  -- Sport
  (("sport", "*"), { line_color := rgb_to_kml "#F39C12" "ff", line_width := pyDec 2 0, poly_color := rgb_to_kml "#F9E79F" "70" }),
  -- Land use
  (("landuse", "residential"), { line_color := rgb_to_kml "#D5D8DC" "ff", line_width := pyDec 1 0, poly_color := rgb_to_kml "#EAECEE" "50" }),
  (("landuse", "commercial"), { line_color := rgb_to_kml "#AED6F1" "ff", line_width := pyDec 1 0, poly_color := rgb_to_kml "#D6EAF8" "50" }),
  (("landuse", "industrial"), { line_color := rgb_to_kml "#ABB2B9" "ff", line_width := pyDec 1 0, poly_color := rgb_to_kml "#D5D8DC" "50" }),
  (("landuse", "farmland"), { line_color := rgb_to_kml "#F5CBA7" "ff", line_width := pyDec 1 0, poly_color := rgb_to_kml "#FDEBD0" "50" }),
  (("landuse", "cemetery"), { line_color := rgb_to_kml "#7D8B8A" "ff", line_width := pyDec 1 5, poly_color := rgb_to_kml "#ABB2B9" "60" }),
  (("landuse", "military"), { line_color := rgb_to_kml "#E74C3C" "ff", line_width := pyDec 2 5, poly_color := rgb_to_kml "#F5B7B1" "40" }),
  (("landuse", "*"), { line_color := rgb_to_kml "#D5D8DC" "ff", line_width := pyDec 1 0, poly_color := rgb_to_kml "#EAECEE" "40" }),
  -- Amenities
  (("amenity", "food"), { line_color := rgb_to_kml "#E67E22" "ff", line_width := pyDec 1 5, icon_href := ICON_DINING, icon_scale := pyDec 1 1 }),
  (("amenity", "education"), { line_color := rgb_to_kml "#27AE60" "ff", line_width := pyDec 1 5, icon_href := ICON_SCHOOLS, icon_scale := pyDec 1 1 }),
  (("amenity", "health"), { line_color := rgb_to_kml "#E74C3C" "ff", line_width := pyDec 1 5, icon_href := ICON_HOSPITAL, icon_scale := pyDec 1 1 }),
  (("amenity", "transport"), { line_color := rgb_to_kml "#3498DB" "ff", line_width := pyDec 1 5, icon_href := ICON_PARKING, icon_scale := pyDec 1 0 }),
  (("amenity", "emergency"), { line_color := rgb_to_kml "#2980B9" "ff", line_width := pyDec 1 5, icon_href := ICON_POLICE, icon_scale := pyDec 1 1 }),
  (("amenity", "worship"), { line_color := rgb_to_kml "#8E44AD" "ff", line_width := pyDec 1 5, icon_href := ICON_WORSHIP, icon_scale := pyDec 1 1 }),
  (("amenity", "finance"), { line_color := rgb_to_kml "#2C3E50" "ff", line_width := pyDec 1 5, icon_href := ICON_SQUARE, icon_scale := pyDec 1 0 }),
  (("amenity", "*"), { line_color := rgb_to_kml "#E67E22" "ff", line_width := pyDec 1 5, icon_href := ICON_CIRCLE, icon_scale := pyDec 0 9 }),
  -- Tourism
  (("tourism", "accommodation"), { line_color := rgb_to_kml "#F1C40F" "ff", line_width := pyDec 1 5, icon_href := ICON_HOTEL, icon_scale := pyDec 1 1 }),
  (("tourism", "culture"), { line_color := rgb_to_kml "#E91E8C" "ff", line_width := pyDec 1 5, icon_href := ICON_MUSEUM, icon_scale := pyDec 1 1 }),
  (("tourism", "viewpoint"), { line_color := rgb_to_kml "#3498DB" "ff", line_width := pyDec 1 5, icon_href := ICON_VIEWPOINT, icon_scale := pyDec 1 1 }),
  (("tourism", "camping"), { line_color := rgb_to_kml "#27AE60" "ff", line_width := pyDec 1 5, icon_href := ICON_CAMPING, icon_scale := pyDec 1 1 }),
  (("tourism", "*"), { line_color := rgb_to_kml "#F1C40F" "ff", line_width := pyDec 1 5, icon_href := ICON_STAR, icon_scale := pyDec 1 0 }),
  -- Shops
  (("shop", "*"), { line_color := rgb_to_kml "#AF7AC5" "ff", line_width := pyDec 1 5, icon_href := ICON_SHOP, icon_scale := pyDec 1 0 }),
  -- Utilities
  (("utility", "power_line"), { line_color := rgb_to_kml "#7F8C8D" "ff", line_width := pyDec 1 5 }),
  (("utility", "power_tower"), { line_color := rgb_to_kml "#7F8C8D" "ff", line_width := pyDec 1 0, icon_href := ICON_TRIANGLE, icon_scale := pyDec 0 8 }),
  (("utility", "power_facility"), { line_color := rgb_to_kml "#F39C12" "ff", line_width := pyDec 2 0, poly_color := rgb_to_kml "#F9E79F" "60" }),
  (("utility", "*"), { line_color := rgb_to_kml "#7F8C8D" "ff", line_width := pyDec 1 5 }),
  -- Barriers
  (("barrier", "linear"), { line_color := rgb_to_kml "#616A6B" "ff", line_width := pyDec 1 5 }),
  (("barrier", "access"), { line_color := rgb_to_kml "#E74C3C" "ff", line_width := pyDec 1 0, icon_href := ICON_SQUARE, icon_scale := pyDec 0 7 }),
  (("barrier", "*"), { line_color := rgb_to_kml "#616A6B" "ff", line_width := pyDec 1 0 }),
  -- Aeroway
  (("aeroway", "runway"), { line_color := rgb_to_kml "#2C3E50" "ff", line_width := pyDec 5 0, poly_color := rgb_to_kml "#566573" "80" }),
  (("aeroway", "terminal"), { line_color := rgb_to_kml "#2C3E50" "ff", line_width := pyDec 2 0, poly_color := rgb_to_kml "#ABB2B9" "80" }),
  (("aeroway", "*"), { line_color := rgb_to_kml "#566573" "ff", line_width := pyDec 2 0 }),
  -- Natural
  (("natural", "peak"), { line_color := rgb_to_kml "#784212" "ff", line_width := pyDec 1 0, icon_href := ICON_PEAK, icon_scale := pyDec 1 2 }),
  (("natural", "cliff"), { line_color := rgb_to_kml "#784212" "ff", line_width := pyDec 2 5 }),
  (("natural", "beach"), { line_color := rgb_to_kml "#F9E79F" "ff", line_width := pyDec 1 5, poly_color := rgb_to_kml "#FCF3CF" "70" }),
  (("natural", "tree"), { line_color := rgb_to_kml "#196F3D" "ff", line_width := pyDec 1 0, icon_href := ICON_TREE, icon_scale := pyDec 0 8 }),
  (("natural", "*"), { line_color := rgb_to_kml "#7D6608" "ff", line_width := pyDec 1 5 }),
  -- Boundaries
  (("boundary", "administrative"), { line_color := rgb_to_kml "#8E44AD" "ff", line_width := pyDec 3 0 }),
  (("boundary", "*"), { line_color := rgb_to_kml "#8E44AD" "ff", line_width := pyDec 2 0 }),
  -- Public transport
  (("transport", "stop"), { line_color := rgb_to_kml "#2980B9" "ff", line_width := pyDec 1 5, icon_href := ICON_BUS, icon_scale := pyDec 1 0 }),
  (("transport", "*"), { line_color := rgb_to_kml "#2980B9" "ff", line_width := pyDec 1 5, icon_href := ICON_BUS, icon_scale := pyDec 0 9 }),
  -- Fallback
  (("other", "*"), { line_color := rgb_to_kml "#BDC3C7" "ff", line_width := pyDec 1 5, icon_href := ICON_DEFAULT, icon_scale := pyDec 0 8 })]

/-- Dict lookup in the palette (`_STYLES.get(k)` / `_STYLES[k]`). -/
def styleFind (k : String × String) : Option FeatureStyle :=
  List.lookup k STYLES

/-- `get_style` from `styles.py`, with a possible `KeyError` on the final
indexing `_STYLES[("other", "*")]` modelled as `Option.none`. Resolution
order: exact (category, subcategory), then (category, "*"), then
("other", "*"). -/
def get_style? (category subcategory : String) : Option FeatureStyle :=
  match styleFind (category, subcategory) with
  | some style => some style
  | none =>
    match styleFind (category, "*") with
    | some style => some style
    | none => styleFind ("other", "*")

/-- The palette's universal default entry value (the `("other", "*")` style). -/
def OTHER_DEFAULT_STYLE : FeatureStyle :=
  { line_color := rgb_to_kml "#BDC3C7" "ff", line_width := pyDec 1 5,
    icon_href := ICON_DEFAULT, icon_scale := pyDec 0 8 }

/-- Total wrapper for `get_style` used by the generator; `get_style?` is
proved to always return `some`, so the `getD` default is never exercised. -/
def get_style (category subcategory : String) : FeatureStyle :=
  (get_style? category subcategory).getD OTHER_DEFAULT_STYLE

/-- `style_id`: stable style ID string `f"style-{category}-{subcategory}"`. -/
def style_id (category subcategory : String) : String :=
  "style-" ++ category ++ "-" ++ subcategory

/-! ## generator.py — text sanitisation

`_OVERPASS_PATTERNS` is a case-insensitive regular expression of nine
alternatives. Python's `re` semantics for this pattern are modelled
directly: `re.sub` scans left to right; at each position the alternatives
are tried in order and the first that matches wins; greedy quantifiers need
no backtracking here because each `\s+`/`[\s\-_]*` class is disjoint from
the first character of whatever follows it in its alternative. Every
alternative consumes at least one character. -/

/-- Python `\s` (ASCII whitespace as used by `str.strip` too). -/
def isPySpace (c : Char) : Bool :=
  c == ' ' || c == '\t' || c == '\n' || c == '\r' || c == '\x0b' || c == '\x0c'

/-- The character class `[\s\-_]`. -/
def isSepClass (c : Char) : Bool :=
  isPySpace c || c == '-' || c == '_'

/-- Case-insensitive literal matcher: on success returns the remaining
suffix after the literal (pattern is given in lowercase). -/
def litCI : List Char → List Char → Option (List Char)
  | [], l => some l
  | _ :: _, [] => none
  | p :: ps, c :: cs => if c.toLower == p then litCI ps cs else none

/-- Greedy `class*`: always succeeds, consuming the longest prefix. -/
def starCls (p : Char → Bool) (l : List Char) : List Char :=
  l.dropWhile p

/-- Greedy `class+`: requires at least one class character. -/
def plusCls (p : Char → Bool) (l : List Char) : Option (List Char) :=
  match l with
  | [] => none
  | c :: cs => if p c then some (cs.dropWhile p) else none

/-- Optional literal `lit?` (greedy, safe without backtracking here). -/
def optLit (pat : List Char) (l : List Char) : List Char :=
  (litCI pat l).getD l

/-- Optional two-way alternation `(?:a|b)?` of literals. -/
def optAlt2 (p1 p2 : List Char) (l : List Char) : List Char :=
  match litCI p1 l with
  | some r => r
  | none => (litCI p2 l).getD l

/-- `exported?\s+from\s+overpass[\s\-_]*(?:turbo|api)?` -/
def altExportedFrom (l : List Char) : Option (List Char) :=
  ((((litCI "exporte".data l).map (optLit "d".data)).bind
    (plusCls isPySpace)).bind (litCI "from".data)).bind
    (fun l2 => ((plusCls isPySpace l2).bind (litCI "overpass".data)).map
      (fun l3 => optAlt2 "turbo".data "api".data (starCls isSepClass l3)))

/-- `generated?\s+by\s+overpass[\s\-_]*(?:turbo|api)?` -/
def altGeneratedBy (l : List Char) : Option (List Char) :=
  ((((litCI "generate".data l).map (optLit "d".data)).bind
    (plusCls isPySpace)).bind (litCI "by".data)).bind
    (fun l2 => ((plusCls isPySpace l2).bind (litCI "overpass".data)).map
      (fun l3 => optAlt2 "turbo".data "api".data (starCls isSepClass l3)))

/-- `overpass[\s\-_]*turbo` -/
def altOverpassTurbo (l : List Char) : Option (List Char) :=
  ((litCI "overpass".data l).map (starCls isSepClass)).bind (litCI "turbo".data)

/-- `overpass[\s\-_]*api` -/
def altOverpassApi (l : List Char) : Option (List Char) :=
  ((litCI "overpass".data l).map (starCls isSepClass)).bind (litCI "api".data)

/-- `overpass` -/
def altOverpass (l : List Char) : Option (List Char) :=
  litCI "overpass".data l

/-- `osmtogeojson` -/
def altOsmtogeojson (l : List Char) : Option (List Char) :=
  litCI "osmtogeojson".data l

/-- `openstreetmap\s*export` -/
def altOpenstreetmapExport (l : List Char) : Option (List Char) :=
  ((litCI "openstreetmap".data l).map (starCls isPySpace)).bind (litCI "export".data)

/-- `osm\s*export` -/
def altOsmExport (l : List Char) : Option (List Char) :=
  ((litCI "osm".data l).map (starCls isPySpace)).bind (litCI "export".data)

/-- `tokml` -/
def altTokml (l : List Char) : Option (List Char) :=
  litCI "tokml".data l

/-- Try the nine alternatives of `_OVERPASS_PATTERNS` in source order at the
head of `l`; on a match return the suffix after the matched text. -/
def matchAt (l : List Char) : Option (List Char) :=
  altExportedFrom l <|> altGeneratedBy l <|> altOverpassTurbo l <|>
  altOverpassApi l <|> altOverpass l <|> altOsmtogeojson l <|>
  altOpenstreetmapExport l <|> altOsmExport l <|> altTokml l

/-- `re.sub(_OVERPASS_PATTERNS, "", ·)` as a left-to-right scan. Structural
recursion on a fuel counter; every match consumes at least one character, so
starting with `fuel = l.length` the fuel never runs out (the `0` arm is
unreachable then). -/
def subFrom : Nat → List Char → List Char
  | 0, l => l
  | fuel + 1, l =>
    match l with
    | [] => []
    | c :: rest =>
      match matchAt l with
      | some after => subFrom fuel after
      | none => c :: subFrom fuel rest

/-- `_OVERPASS_PATTERNS.sub("", text)`. -/
def pySub (s : String) : String :=
  String.mk (subFrom s.data.length s.data)

/-- Python `str.strip()`: trim surrounding whitespace. -/
def pyStrip (s : String) : String :=
  String.mk (((s.data.dropWhile isPySpace).reverse.dropWhile isPySpace).reverse)

/-- `_sanitise_text`: remove Overpass/OSM tool references, then strip. -/
def sanitise_text (text : String) : String :=
  pyStrip (pySub text)

/-- Whether some position of `l` starts a match of the denylist pattern. -/
def hasMatchList : List Char → Bool
  | [] => false
  | c :: rest => (matchAt (c :: rest)).isSome || hasMatchList rest

/-- Whether `s` contains a substring matching the denylist patterns. -/
def containsDenylisted (s : String) : Bool :=
  hasMatchList s.data

/-! ## parser.py / generator.py — data model and document assembly -/

/-- `Feature` dataclass from `parser.py`. The lxml geometry element is an
opaque payload handle copied verbatim by the assembler. -/
structure Feature where
  name : String
  geometry_type : String
  geometry_element : Nat
  tags : Tags
  osm_id : String
deriving DecidableEq, Repr

/-- Python `str.title()` for ASCII text: uppercase an alphabetic character
that follows a non-cased character, lowercase the others. -/
def pyTitleGo : Bool → List Char → List Char
  | _, [] => []
  | prevCased, c :: cs =>
    if c.isAlpha then (if prevCased then c.toLower else c.toUpper) :: pyTitleGo true cs
    else c :: pyTitleGo false cs

/-- Python `str.title()`. -/
def pyTitle (s : String) : String := String.mk (pyTitleGo false s.data)

/-- `subcategory.replace("_", " ")` — single-character replacement. -/
def replaceUnderscores (s : String) : String :=
  String.mk (s.data.map (fun c => if c == '_' then ' ' else c))

/-- Python `str.startswith`. -/
def pyStartswith (s p : String) : Bool := p.data.isPrefixOf s.data

/-- `skip_prefixes = ("@", "id", "source")` in `_build_description`. -/
def skipPrefixes : List String := ["@", "id", "source"]

/-- Python `sorted` order on tag items (lexicographic on the pair). -/
def tagLe (a b : String × String) : Prop :=
  a.1.data < b.1.data ∨ (a.1 = b.1 ∧ a.2.data ≤ b.2.data)

instance : DecidableRel tagLe := fun a b =>
  inferInstanceAs (Decidable (a.1.data < b.1.data ∨ (a.1 = b.1 ∧ a.2.data ≤ b.2.data)))

/-- `_build_description`: one table row per tag, sorted by key, skipping
reserved prefixes; empty string when no rows survive. -/
def build_description (feature : Feature) : String :=
  let rows := (List.insertionSort tagLe feature.tags).filterMap (fun kv =>
    if skipPrefixes.any (fun p => pyStartswith kv.1 p) then none
    else some ("<tr><td><b>" ++ kv.1 ++ "</b></td><td>" ++ kv.2 ++ "</td></tr>"))
  if rows.isEmpty then "" else "<table>" ++ String.join rows ++ "</table>"

/-- The abstract `<Placemark>` element built by `_build_placemark`. -/
structure Placemark where
  name : String
  description : Option String
  styleUrl : String
  geometry : Nat
deriving DecidableEq, Repr

/-- `_build_placemark`: sanitised name with title-cased subcategory
fallback, optional description, `#sid` style reference, geometry copied
verbatim. The `fstyle` argument is unused, as in the source. -/
def build_placemark (feature : Feature) (cls : Classification)
    (_fstyle : FeatureStyle) (sid : String) : Placemark :=
  let sname := sanitise_text feature.name
  let desc := build_description feature
  { name := if sname = "" then pyTitle (replaceUnderscores cls.subcategory) else sname
    description := if desc = "" then none else some desc
    styleUrl := "#" ++ sid
    geometry := feature.geometry_element }

/-- The `<IconStyle>` child of a style block. -/
structure IconStyleEl where
  scale : ℚ
  color : String
  href : String
deriving DecidableEq, Repr

/-- The `<PolyStyle>` child of a style block. -/
structure PolyStyleEl where
  color : String
  fill : String
  outline : String
deriving DecidableEq, Repr

/-- The abstract `<Style id="...">` element built by
`_build_style_element`. -/
structure StyleEl where
  id : String
  iconStyle : Option IconStyleEl
  labelColor : String
  labelScale : ℚ
  lineColor : String
  lineWidth : ℚ
  polyStyle : Option PolyStyleEl
deriving DecidableEq, Repr

/-- `_build_style_element`: IconStyle only for Point geometry with an icon,
PolyStyle only for Polygon geometry with a fill colour. -/
def build_style_element (sid : String) (fstyle : FeatureStyle)
    (geom_type : String) : StyleEl :=
  { id := sid
    iconStyle :=
      if geom_type = "Point" ∧ fstyle.icon_href ≠ "" then
        some ⟨fstyle.icon_scale, fstyle.line_color, fstyle.icon_href⟩
      else none
    labelColor := fstyle.label_color
    labelScale := fstyle.label_scale
    lineColor := fstyle.line_color
    lineWidth := fstyle.line_width
    polyStyle :=
      if geom_type = "Polygon" ∧ fstyle.poly_color ≠ "" then
        some ⟨fstyle.poly_color, if fstyle.poly_fill then "1" else "0",
              if fstyle.poly_outline then "1" else "0"⟩
      else none }

/-- One iteration of the `styles_needed` collection loop: on a fresh style
id, record the resolved style together with this record's geometry type;
on an already-seen id, keep the existing entry (first-seen wins). -/
def collectStep (acc : List (String × FeatureStyle × String))
    (fc : Feature × Classification) : List (String × FeatureStyle × String) :=
  let sid := style_id fc.2.category fc.2.subcategory
  match List.lookup sid acc with
  | some _ => acc
  | none => acc ++ [(sid, get_style fc.2.category fc.2.subcategory, fc.1.geometry_type)]

/-- The `styles_needed` dict: keyed by style id, first-seen record wins,
value is the resolved style and that record's geometry type. Insertion
order is modelled by appending (the dict is later sorted anyway). -/
def collectStyles (classified : List (Feature × Classification)) :
    List (String × FeatureStyle × String) :=
  classified.foldl collectStep []

/-- One step of `defaultdict(list)` grouping: append `item` to the bucket
of `key`, creating the bucket at the end on first sight of the key. -/
def groupedInsert (key : String) (item : Feature × Classification) :
    List (String × List (Feature × Classification)) →
    List (String × List (Feature × Classification))
  | [] => [(key, [item])]
  | (k, items) :: rest =>
    if k = key then (k, items ++ [item]) :: rest
    else (k, items) :: groupedInsert key item rest

/-- `grouped = defaultdict(list); for feat, cls in classified:
grouped[cls.category].append((feat, cls))`. -/
def groupByCategory (classified : List (Feature × Classification)) :
    List (String × List (Feature × Classification)) :=
  classified.foldl (fun acc fc => groupedInsert fc.2.category fc acc) []

/-- The `folder_labels` dict. -/
def folder_labels : List (String × String) := [
  ("road", "Roads"), ("railway", "Railways"), ("water", "Water"),
  ("building", "Buildings"), ("green", "Green Spaces"), ("sport", "Sports"),
  ("landuse", "Land Use"), ("amenity", "Amenities"), ("tourism", "Tourism"),
  ("shop", "Shops"), ("utility", "Utilities"), ("barrier", "Barriers"),
  ("aeroway", "Aeroways"), ("natural", "Natural Features"),
  ("boundary", "Boundaries"), ("transport", "Public Transport"),
  ("other", "Other")]

/-- `folder_labels.get(category, category.title())`. -/
def folderLabel (category : String) : String :=
  (List.lookup category folder_labels).getD (pyTitle category)

/-- A child of the `<Document>` element following the style blocks: a
category `<Folder>` (when `use_folders`) or a bare `<Placemark>`. -/
inductive DocItem where
  | folder (name : String) (placemarks : List Placemark)
  | placemark (pm : Placemark)
deriving DecidableEq, Repr

/-- The abstract KML document produced by `generate_styled_kml`: document
name and description, then the style blocks, then folders/placemarks. -/
structure KmlDocument where
  name : String
  description : String
  styles : List StyleEl
  items : List DocItem
deriving DecidableEq, Repr

/-- `ATOC_DESCRIPTION`. -/
def ATOC_DESCRIPTION : String := "Processed by ATOC"

/-- Python `sorted` on dict items: keys are unique, so comparison on the
key alone is the full tuple order. Strings compare lexicographically by
code point, written on the underlying character lists so that comparisons
are kernel-computable. -/
def keyLe {β : Type} (a b : String × β) : Prop := a.1.data ≤ b.1.data

instance {β : Type} : DecidableRel (@keyLe β) := fun a b =>
  inferInstanceAs (Decidable (a.1.data ≤ b.1.data))

/-- `generate_styled_kml` from `generator.py` (Python defaults
`use_folders=True`, `document_name="ATOC Export"` are passed explicitly).
Serialization to markup text is outside the embedding; the function returns
the abstract document tree. -/
def generate_styled_kml (features : List Feature) (use_folders : Bool)
    (document_name : String) : KmlDocument :=
  let docName := if sanitise_text document_name = "" then "ATOC Export"
                 else sanitise_text document_name
  let classified := features.map (fun feat => (feat, classify feat.tags))
  let styles_needed := collectStyles classified
  let styleEls := (List.insertionSort keyLe styles_needed).map
    (fun e => build_style_element e.1 e.2.1 e.2.2)
  let grouped := groupByCategory classified
  let items := (List.insertionSort keyLe grouped).flatMap (fun ci =>
    let pms := ci.2.map (fun fc =>
      build_placemark fc.1 fc.2 (get_style fc.2.category fc.2.subcategory)
        (style_id fc.2.category fc.2.subcategory))
    if use_folders then [DocItem.folder (folderLabel ci.1) pms]
    else pms.map DocItem.placemark)
  { name := docName, description := ATOC_DESCRIPTION,
    styles := styleEls, items := items }

/-! ## Helper lemmas -/

/-- Strings are equal when their character lists are. -/
theorem string_ext {a b : String} (h : a.data = b.data) : a = b := by
  cases a; cases b; exact congrArg String.mk h

/-- Left cancellation for string append. -/
theorem str_append_left_cancel {p s t : String} (h : p ++ s = p ++ t) : s = t := by
  have h2 : (p ++ s).data = (p ++ t).data := by rw [h]
  rw [String.data_append, String.data_append] at h2
  exact string_ext (List.append_cancel_left h2)

/-- `classifyLoop` returns exactly the classification of the first rule of
the list that matches, and the default when none does. -/
theorem classifyLoop_eq_find (tags : Tags) (rs : List Rule) :
    classifyLoop tags rs =
      match rs.find? (fun r => ruleMatches tags r) with
      | some r => ⟨r.category, r.subcategory⟩
      | none => DEFAULT := by
  induction rs with
  | nil => rfl
  | cons r rest ih =>
    rw [List.find?_cons]
    cases hl : List.lookup r.key tags with
    | none =>
      have hm : ruleMatches tags r = false := by simp [ruleMatches, hl]
      simp only [classifyLoop, hl, hm, cond_false]
      exact ih
    | some v =>
      cases hv : r.values with
      | none =>
        have hm : ruleMatches tags r = true := by simp [ruleMatches, hl, hv]
        simp only [classifyLoop, hl, hv, hm, cond_true]
      | some vs =>
        by_cases hmem : v ∈ vs
        · have hm : ruleMatches tags r = true := by
            simp [ruleMatches, hl, hv, hmem]
          simp only [classifyLoop, hl, hv, hm, cond_true, if_pos hmem]
        · have hm : ruleMatches tags r = false := by
            simp [ruleMatches, hl, hv, hmem]
          simp only [classifyLoop, hl, hv, hm, cond_false, if_neg hmem]
          exact ih

/-! ## Claims -/

/-- C1: `classify` scans the fixed rule sequence top to bottom and returns
the (category, subcategory) of the first rule whose tag key is present in
the mapping and whose value set is the wildcard or contains the tag's
value, evaluating no further rules (`List.find?` is exactly that
first-match scan); in particular a mapping with both highway="primary" and
building="yes" classifies with category "road". -/
theorem classify_first_match_wins :
    (∀ tags : Tags, classify tags =
      match RULES.find? (fun r => ruleMatches tags r) with
      | some r => ⟨r.category, r.subcategory⟩
      | none => DEFAULT) ∧
    (classify [("highway", "primary"), ("building", "yes")]).category = "road" :=
  ⟨fun tags => classifyLoop_eq_find tags RULES, by decide⟩

/-- C2: when no rule of the table matches, `classify` returns the default
Classification ("other", "unknown"); in particular on the empty mapping.
`classify` is a total Lean function, so it never fails on any tag
mapping. -/
theorem classify_default_when_no_rule_matches :
    (∀ tags : Tags, (∀ r ∈ RULES, ruleMatches tags r = false) →
      classify tags = DEFAULT) ∧
    classify [] = DEFAULT ∧ DEFAULT = ⟨"other", "unknown"⟩ := by
  refine ⟨fun tags h => ?_, by decide, rfl⟩
  have hfind : RULES.find? (fun r => ruleMatches tags r) = none :=
    List.find?_eq_none.mpr (fun r hr => by simp [h r hr])
  rw [classify, classifyLoop_eq_find, hfind]

/-- Witness for C2 at the empty tag mapping. -/
theorem classify_default_when_no_rule_matches_witness :
    (∀ r ∈ RULES, ruleMatches [] r = false) ∧ classify [] = DEFAULT :=
  ⟨by decide, classify_default_when_no_rule_matches.1 [] (by decide)⟩

/-- C3: `get_style?` (`get_style` with a raising palette miss modelled as
`none`) always returns a style for every (category, subcategory) pair,
resolved by trying the exact entry, then the (category, "*") wildcard,
then the ("other", "*") default, which is present in the palette. -/
theorem get_style_total_with_tiered_fallback :
    (∀ category subcategory, ∃ st, get_style? category subcategory = some st) ∧
    (∀ category subcategory st, styleFind (category, subcategory) = some st →
      get_style? category subcategory = some st) ∧
    (∀ category subcategory st, styleFind (category, subcategory) = none →
      styleFind (category, "*") = some st →
      get_style? category subcategory = some st) ∧
    (∀ category subcategory, styleFind (category, subcategory) = none →
      styleFind (category, "*") = none →
      get_style? category subcategory = styleFind ("other", "*")) ∧
    styleFind ("other", "*") = some OTHER_DEFAULT_STYLE := by
  have hdef : styleFind ("other", "*") = some OTHER_DEFAULT_STYLE := by decide
  refine ⟨fun category subcategory => ?_, fun c s st h => ?_, fun c s st h1 h2 => ?_,
    fun c s h1 h2 => ?_, hdef⟩
  · unfold get_style?
    cases h1 : styleFind (category, subcategory) with
    | some st => exact ⟨st, rfl⟩
    | none =>
      cases h2 : styleFind (category, "*") with
      | some st => exact ⟨st, rfl⟩
      | none => exact ⟨OTHER_DEFAULT_STYLE, hdef⟩
  · unfold get_style?; rw [h]
  · unfold get_style?; rw [h1, h2]
  · unfold get_style?; rw [h1, h2]

/-- Witness for C3 at a pair hitting the universal default tier. -/
theorem get_style_total_with_tiered_fallback_witness :
    (styleFind ("zzz", "qqq") = none ∧ styleFind ("zzz", "*") = none) ∧
    get_style? "zzz" "qqq" = styleFind ("other", "*") :=
  ⟨⟨by decide, by decide⟩,
    get_style_total_with_tiered_fallback.2.2.2.1 "zzz" "qqq" (by decide) (by decide)⟩

/-- C4: `style_id` is a pure function — equal (category, subcategory)
inputs give identical id strings — and for a fixed category it is
injective in the subcategory. -/
theorem style_id_deterministic_and_injective :
    (∀ category s₁ s₂, s₁ = s₂ → style_id category s₁ = style_id category s₂) ∧
    (∀ category s₁ s₂, s₁ ≠ s₂ → style_id category s₁ ≠ style_id category s₂) := by
  refine ⟨fun category s₁ s₂ h => by rw [h], fun category s₁ s₂ hne heq => ?_⟩
  exact hne (str_append_left_cancel heq)

/-- Witness for C4 at concrete subcategories of the "road" category. -/
theorem style_id_deterministic_and_injective_witness :
    style_id "road" "motorway" = style_id "road" "motorway" ∧
    style_id "road" "motorway" ≠ style_id "road" "primary" :=
  ⟨style_id_deterministic_and_injective.1 "road" "motorway" "motorway" rfl,
    style_id_deterministic_and_injective.2 "road" "motorway" "primary" (by decide)⟩

/-- On a character list with no position starting a denylist match, the
substitution scan copies every character unchanged. -/
theorem subFrom_of_no_match :
    ∀ (fuel : Nat) (l : List Char), hasMatchList l = false → subFrom fuel l = l := by
  intro fuel
  induction fuel with
  | zero => intro l _; rfl
  | succ fuel ih =>
    intro l h
    cases l with
    | nil => rfl
    | cons c rest =>
      have hnone : matchAt (c :: rest) = none := by
        cases hm : matchAt (c :: rest) with
        | none => rfl
        | some r => rw [hasMatchList, hm] at h; simp at h
      have hrest : hasMatchList rest = false := by
        rw [hasMatchList, hnone] at h; simpa using h
      rw [subFrom, hnone, ih rest hrest]

/-- C5 counterexample: `" hello "` contains no denylisted substring, yet
sanitisation does not return it unchanged (the trailing `.strip()` trims
the surrounding whitespace). -/
theorem sanitise_text_alters_unmatched_input :
    containsDenylisted " hello " = false ∧
    sanitise_text " hello " ≠ " hello " ∧ sanitise_text " hello " = "hello" :=
  ⟨by decide, by decide, by decide⟩

/-- C5 (amended): on input with no denylisted substring, sanitisation
returns the input unchanged except for trimming surrounding whitespace;
a denylisted substring is removed regardless of case while the rest of
the field is kept (concrete instance); "Exported from Overpass Turbo"
sanitises to the empty string. `sanitise_text` is a total Lean function,
so sanitisation never fails on any input. -/
theorem sanitise_text_denylist_filter :
    (∀ s : String, containsDenylisted s = false → sanitise_text s = pyStrip s) ∧
    sanitise_text "Exported from Overpass Turbo" = "" ∧
    sanitise_text "foo OVERPASS bar" = "foo  bar" := by
  refine ⟨fun s h => ?_, by decide, by decide⟩
  have : pySub s = s := by
    rw [pySub, subFrom_of_no_match s.data.length s.data h]
  rw [sanitise_text, this]

/-- Witness for C5 (amended) at a match-free input. -/
theorem sanitise_text_denylist_filter_witness :
    containsDenylisted "hello" = false ∧ sanitise_text "hello" = pyStrip "hello" :=
  ⟨by decide, sanitise_text_denylist_filter.1 "hello" (by decide)⟩

/-- C9: when the document title passed in the options sanitises to the
empty string, the emitted document's name is the branding string
"ATOC Export". -/
theorem document_name_falls_back_to_branding :
    ∀ (features : List Feature) (use_folders : Bool) (document_name : String),
      sanitise_text document_name = "" →
      (generate_styled_kml features use_folders document_name).name = "ATOC Export" := by
  intro features use_folders document_name h
  simp [generate_styled_kml, h]

/-- Witness for C9 at a title that is entirely a denylisted tool name. -/
theorem document_name_falls_back_to_branding_witness :
    sanitise_text "Overpass Turbo" = "" ∧
    (generate_styled_kml [] true "Overpass Turbo").name = "ATOC Export" :=
  ⟨by decide, document_name_falls_back_to_branding [] true "Overpass Turbo" (by decide)⟩

/-! ## Association-list helper lemmas -/

/-- Lookup distributes over append, preferring the left list. -/
theorem lookup_append {β : Type} (k : String) :
    ∀ l₁ l₂ : List (String × β), List.lookup k (l₁ ++ l₂) =
      match List.lookup k l₁ with
      | some v => some v
      | none => List.lookup k l₂ := by
  intro l₁ l₂
  induction l₁ with
  | nil => rfl
  | cons p rest ih =>
    by_cases hk : k = p.1
    · simp [List.lookup, hk]
    · simp only [List.cons_append, List.lookup]
      rw [show (k == p.1) = false by simpa using hk]
      exact ih

/-- A key is absent from an association list iff its lookup is `none`. -/
theorem lookup_eq_none_iff_not_mem_keys {β : Type} (k : String) :
    ∀ l : List (String × β), List.lookup k l = none ↔ k ∉ l.map Prod.fst := by
  intro l
  induction l with
  | nil => simp
  | cons p rest ih =>
    by_cases hk : k = p.1
    · simp [List.lookup, hk]
    · simp only [List.lookup, List.map_cons, List.mem_cons]
      rw [show (k == p.1) = false by simpa using hk]
      simp [ih, hk]

/-- With nodup keys, membership of a pair determines its lookup. -/
theorem lookup_of_mem_of_nodup {β : Type} {k : String} {v : β} :
    ∀ {l : List (String × β)}, (k, v) ∈ l → (l.map Prod.fst).Nodup →
      List.lookup k l = some v := by
  intro l
  induction l with
  | nil => simp
  | cons p rest ih =>
    intro hmem hnodup
    rcases List.mem_cons.mp hmem with h | h
    · rw [← h]; simp [List.lookup]
    · have hk : k ≠ p.1 := by
        intro hkp
        have : p.1 ∈ rest.map Prod.fst := by
          rw [← hkp]; exact List.mem_map.mpr ⟨(k, v), h, rfl⟩
        exact (List.nodup_cons.mp (by simpa using hnodup)).1 this
      simp only [List.lookup]
      rw [show (k == p.1) = false by simpa using hk]
      exact ih h (List.nodup_cons.mp (by simpa using hnodup)).2

/-! ## Grouping lemmas -/

/-- Effect of one `defaultdict` insertion on lookups. -/
theorem groupedInsert_lookup (key : String) (item : Feature × Classification)
    (c : String) :
    ∀ acc, List.lookup c (groupedInsert key item acc) =
      if c = key then some (((List.lookup c acc).getD []) ++ [item])
      else List.lookup c acc := by
  intro acc
  induction acc with
  | nil =>
    by_cases hc : c = key
    · subst hc; simp [groupedInsert, List.lookup]
    · simp only [groupedInsert, List.lookup, if_neg hc,
        show (c == key) = false by simpa using hc]
  | cons p rest ih =>
    obtain ⟨k, items⟩ := p
    by_cases hk : k = key
    · subst hk
      by_cases hc : c = k
      · subst hc; simp [groupedInsert, List.lookup]
      · simp [groupedInsert, List.lookup, hc,
          show (c == k) = false by simpa using hc]
    · by_cases hc : c = k
      · subst hc
        have hck : ¬ c = key := hk
        simp [groupedInsert, if_neg hk, List.lookup, hck]
      · simp only [groupedInsert, if_neg hk, List.lookup,
          show (c == k) = false by simpa using hc]
        exact ih

/-- Membership in the keys after one `defaultdict` insertion. -/
theorem groupedInsert_mem_keys (key : String) (item : Feature × Classification)
    (c : String) :
    ∀ acc, c ∈ (groupedInsert key item acc).map Prod.fst ↔
      c ∈ acc.map Prod.fst ∨ c = key := by
  intro acc
  induction acc with
  | nil => simp [groupedInsert]
  | cons p rest ih =>
    obtain ⟨k, items⟩ := p
    by_cases hk : k = key
    · subst hk
      rw [groupedInsert, if_pos rfl]
      simp only [List.map_cons, List.mem_cons]
      tauto
    · simp only [groupedInsert, if_neg hk, List.map_cons, List.mem_cons, ih]
      tauto

/-- `defaultdict` insertion preserves nodup keys. -/
theorem groupedInsert_keys_nodup (key : String) (item : Feature × Classification) :
    ∀ acc, (acc.map Prod.fst).Nodup →
      ((groupedInsert key item acc).map Prod.fst).Nodup := by
  intro acc
  induction acc with
  | nil => intro _; simp [groupedInsert]
  | cons p rest ih =>
    obtain ⟨k, items⟩ := p
    intro hnd
    rw [List.map_cons, List.nodup_cons] at hnd
    by_cases hk : k = key
    · subst hk; simpa [groupedInsert, List.nodup_cons] using hnd
    · rw [groupedInsert, if_neg hk, List.map_cons, List.nodup_cons]
      refine ⟨fun hmem => ?_, ih hnd.2⟩
      rcases (groupedInsert_mem_keys key item k rest).mp hmem with h | h
      · exact hnd.1 h
      · exact hk h

/-- The bucket of category `c` after folding the grouping step over `l`. -/
theorem foldl_groupedInsert_getD (c : String) :
    ∀ (l : List (Feature × Classification))
      (acc : List (String × List (Feature × Classification))),
      (List.lookup c (l.foldl (fun acc fc => groupedInsert fc.2.category fc acc) acc)).getD [] =
        (List.lookup c acc).getD [] ++ l.filter (fun fc => fc.2.category == c) := by
  intro l
  induction l with
  | nil => intro acc; simp
  | cons fc rest ih =>
    intro acc
    rw [List.foldl_cons, ih, List.filter_cons]
    by_cases hc : fc.2.category = c
    · rw [groupedInsert_lookup]
      simp [hc, List.append_assoc]
    · rw [groupedInsert_lookup]
      have : ¬ c = fc.2.category := fun h => hc h.symm
      simp [this, show (fc.2.category == c) = false by simpa using hc]

/-- Keys present after folding the grouping step over `l`. -/
theorem foldl_groupedInsert_mem_keys (c : String) :
    ∀ (l : List (Feature × Classification)) (acc),
      c ∈ ((l.foldl (fun acc fc => groupedInsert fc.2.category fc acc) acc).map Prod.fst) ↔
        c ∈ acc.map Prod.fst ∨ ∃ fc ∈ l, fc.2.category = c := by
  intro l
  induction l with
  | nil => intro acc; simp
  | cons fc rest ih =>
    intro acc
    rw [List.foldl_cons, ih, groupedInsert_mem_keys]
    constructor
    · rintro ((h | h) | ⟨x, hx, hcat⟩)
      · exact Or.inl h
      · exact Or.inr ⟨fc, List.mem_cons_self fc rest, h.symm⟩
      · exact Or.inr ⟨x, List.mem_cons_of_mem fc hx, hcat⟩
    · rintro (h | ⟨x, hx, hcat⟩)
      · exact Or.inl (Or.inl h)
      · rcases List.mem_cons.mp hx with h | h
        · subst h; exact Or.inl (Or.inr hcat.symm)
        · exact Or.inr ⟨x, h, hcat⟩

/-- Nodup keys after folding the grouping step. -/
theorem foldl_groupedInsert_keys_nodup :
    ∀ (l : List (Feature × Classification)) (acc),
      (acc.map Prod.fst).Nodup →
      (((l.foldl (fun acc fc => groupedInsert fc.2.category fc acc) acc)).map Prod.fst).Nodup := by
  intro l
  induction l with
  | nil => intro acc h; simpa using h
  | cons fc rest ih =>
    intro acc h
    rw [List.foldl_cons]
    exact ih _ (groupedInsert_keys_nodup _ _ _ h)

/-- `groupByCategory` buckets are the input filtered by category, in input
order. -/
theorem groupByCategory_getD (c : String) (l : List (Feature × Classification)) :
    (List.lookup c (groupByCategory l)).getD [] =
      l.filter (fun fc => fc.2.category == c) := by
  rw [groupByCategory, foldl_groupedInsert_getD]; rfl

/-- `groupByCategory` keys are exactly the categories present. -/
theorem groupByCategory_mem_keys (c : String) (l : List (Feature × Classification)) :
    c ∈ (groupByCategory l).map Prod.fst ↔ ∃ fc ∈ l, fc.2.category = c := by
  rw [groupByCategory, foldl_groupedInsert_mem_keys]; simp

/-- `groupByCategory` has nodup keys. -/
theorem groupByCategory_keys_nodup (l : List (Feature × Classification)) :
    ((groupByCategory l).map Prod.fst).Nodup :=
  foldl_groupedInsert_keys_nodup l [] (by simp)

/-! ## Style-collection lemmas -/

/-- The entry of style id `sid` after folding the collection step: the
entry from `acc` if present, else the style and geometry type of the first
record of `l` bearing `sid`. -/
theorem foldl_collectStep_lookup (sid : String) :
    ∀ (l : List (Feature × Classification)) (acc),
      List.lookup sid (l.foldl collectStep acc) =
        match List.lookup sid acc with
        | some v => some v
        | none =>
          (l.find? (fun fc => style_id fc.2.category fc.2.subcategory == sid)).map
            (fun fc => (get_style fc.2.category fc.2.subcategory, fc.1.geometry_type)) := by
  intro l
  induction l with
  | nil => intro acc; cases hsa : List.lookup sid acc <;> simp [hsa]
  | cons fc rest ih =>
    intro acc
    rw [List.foldl_cons, ih, List.find?_cons]
    by_cases hfc : style_id fc.2.category fc.2.subcategory = sid
    · rw [show (style_id fc.2.category fc.2.subcategory == sid) = true by simpa using hfc]
      cases hsa : List.lookup sid acc with
      | some v =>
        have hstep : List.lookup sid (collectStep acc fc) = some v := by
          rw [collectStep]
          cases hl : List.lookup (style_id fc.2.category fc.2.subcategory) acc with
          | some w => simpa using hsa
          | none => rw [hfc] at hl; rw [hl] at hsa; cases hsa
        rw [hstep]
      | none =>
        have hl : List.lookup (style_id fc.2.category fc.2.subcategory) acc = none := by
          rw [hfc]; exact hsa
        have hstep : List.lookup sid (collectStep acc fc) =
            some (get_style fc.2.category fc.2.subcategory, fc.1.geometry_type) := by
          rw [collectStep, hl, lookup_append, hsa, hfc]
          simp [List.lookup]
        rw [hstep]
        simp
    · have hbeq : (style_id fc.2.category fc.2.subcategory == sid) = false := by
        simpa using hfc
      rw [hbeq]
      have hstep : List.lookup sid (collectStep acc fc) = List.lookup sid acc := by
        rw [collectStep]
        cases hl : List.lookup (style_id fc.2.category fc.2.subcategory) acc with
        | some w => simp
        | none =>
          rw [lookup_append]
          cases hsa : List.lookup sid acc with
          | some v => simp
          | none => simp [List.lookup, show (sid == style_id fc.2.category fc.2.subcategory) = false by simpa using fun h => hfc h.symm]
      rw [hstep]

/-- Folding the collection step preserves nodup keys. -/
theorem foldl_collectStep_keys_nodup :
    ∀ (l : List (Feature × Classification)) (acc),
      (acc.map Prod.fst).Nodup → ((l.foldl collectStep acc).map Prod.fst).Nodup := by
  intro l
  induction l with
  | nil => intro acc h; simpa using h
  | cons fc rest ih =>
    intro acc h
    rw [List.foldl_cons]
    refine ih _ ?_
    rw [collectStep]
    cases hl : List.lookup (style_id fc.2.category fc.2.subcategory) acc with
    | some w => simpa using h
    | none =>
      have hnot := (lookup_eq_none_iff_not_mem_keys _ acc).mp hl
      rw [List.map_append, List.map_cons, List.map_nil]
      exact List.Nodup.append h (List.nodup_singleton _)
        (by simpa [List.disjoint_singleton] using hnot)

/-- `collectStyles` lookups find the first record with the given id. -/
theorem collectStyles_lookup (sid : String) (l : List (Feature × Classification)) :
    List.lookup sid (collectStyles l) =
      (l.find? (fun fc => style_id fc.2.category fc.2.subcategory == sid)).map
        (fun fc => (get_style fc.2.category fc.2.subcategory, fc.1.geometry_type)) := by
  rw [collectStyles, foldl_collectStep_lookup]; rfl

/-- `collectStyles` has nodup keys. -/
theorem collectStyles_keys_nodup (l : List (Feature × Classification)) :
    ((collectStyles l).map Prod.fst).Nodup :=
  foldl_collectStep_keys_nodup l [] (by simp)

/-- The keys of `collectStyles` are exactly the style ids present in `l`. -/
theorem collectStyles_mem_keys (sid : String) (l : List (Feature × Classification)) :
    sid ∈ (collectStyles l).map Prod.fst ↔
      ∃ fc ∈ l, style_id fc.2.category fc.2.subcategory = sid := by
  rw [← not_iff_not, ← lookup_eq_none_iff_not_mem_keys, collectStyles_lookup]
  rw [Option.map_eq_none', List.find?_eq_none]
  push_neg
  constructor
  · intro h fc hfc hsid
    exact absurd (by simpa using hsid) (by simpa using h fc hfc)
  · intro h fc hfc hbeq
    exact absurd (by simpa using hbeq) (fun hh => h fc hfc hh)

/-! ## Sorting lemmas -/

/-- The model's key comparison agrees with the string order. -/
theorem keyLe_iff {β : Type} (a b : String × β) : keyLe a b ↔ a.1 ≤ b.1 :=
  String.le_iff_toList_le.symm

instance {β : Type} : IsTotal (String × β) keyLe :=
  ⟨fun a b => (le_total a.1 b.1).imp (keyLe_iff a b).mpr (keyLe_iff b a).mpr⟩

instance {β : Type} : IsTrans (String × β) keyLe :=
  ⟨fun a b c hab hbc =>
    (keyLe_iff a c).mpr (le_trans ((keyLe_iff a b).mp hab) ((keyLe_iff b c).mp hbc))⟩

/-- Sorting an association list with nodup keys yields keys that are
strictly increasing. -/
theorem sorted_keys_pairwise_lt {β : Type} (l : List (String × β))
    (hnd : (l.map Prod.fst).Nodup) :
    ((List.insertionSort keyLe l).map Prod.fst).Pairwise (· < ·) := by
  have hs : (List.insertionSort keyLe l).Pairwise keyLe :=
    List.sorted_insertionSort keyLe l
  have hperm := List.perm_insertionSort keyLe l
  have hnd2 : ((List.insertionSort keyLe l).map Prod.fst).Nodup :=
    ((hperm.map Prod.fst).nodup_iff).mpr hnd
  have hne : (List.insertionSort keyLe l).Pairwise (fun a b => a.1 ≠ b.1) := by
    rw [List.Nodup, List.pairwise_map] at hnd2
    exact hnd2
  rw [List.pairwise_map]
  exact (hs.and hne).imp (fun h => lt_of_le_of_ne ((keyLe_iff _ _).mp h.1) h.2)

/-- Every pair of the sorted association list with nodup keys is determined
by its key via lookup in the unsorted list. -/
theorem mem_sort_lookup {β : Type} {l : List (String × β)} {p : String × β}
    (hnd : (l.map Prod.fst).Nodup) (hp : p ∈ List.insertionSort keyLe l) :
    List.lookup p.1 l = some p.2 :=
  lookup_of_mem_of_nodup ((List.perm_insertionSort keyLe l).mem_iff.mp hp) hnd

/-- A `flatMap` of singletons is a `map`. -/
theorem flatMap_singleton_eq_map {A B : Type} (g : A → B) (l : List A) :
    (l.flatMap fun a => [g a]) = l.map g := by
  induction l with
  | nil => rfl
  | cons a rest ih => simp [ih]

/-- Rewriting a `flatMap` over an association list whose values are a
function of their keys into a `flatMap` over the keys. -/
theorem flatMap_congr_keys {A B : Type} (g : String × A → List B) (vf : String → A) :
    ∀ L : List (String × A), (∀ p ∈ L, p.2 = vf p.1) →
      L.flatMap g = (L.map Prod.fst).flatMap (fun c => g (c, vf c)) := by
  intro L
  induction L with
  | nil => intro _; rfl
  | cons p rest ih =>
    intro h
    rw [List.flatMap_cons, List.map_cons, List.flatMap_cons,
      ih (fun q hq => h q (List.mem_cons_of_mem _ hq))]
    have hp := h p (List.mem_cons_self p rest)
    rw [← hp]

/-! ## Characterization of the generated document -/

/-- The style id the assembler computes for a feature (both when collecting
needed styles and when building its placemark). -/
def styleIdOf (f : Feature) : String :=
  style_id (classify f.tags).category (classify f.tags).subcategory

/-- The placemark the assembler builds for a feature. -/
def placemarkOf (f : Feature) : Placemark :=
  build_placemark f (classify f.tags)
    (get_style (classify f.tags).category (classify f.tags).subcategory)
    (styleIdOf f)

/-- The categories of the emitted groups, in emission order. -/
def sortedCategories (features : List Feature) : List String :=
  (List.insertionSort keyLe
    (groupByCategory (features.map fun f => (f, classify f.tags)))).map Prod.fst

/-- All placemarks of a document, folder contents included, in emission
order. -/
def docPlacemarks (doc : KmlDocument) : List Placemark :=
  doc.items.flatMap (fun it =>
    match it with
    | DocItem.folder _ pms => pms
    | DocItem.placemark pm => [pm])

/-- The emitted style blocks, unfolded. -/
theorem gen_styles_eq (features : List Feature) (use_folders : Bool)
    (document_name : String) :
    (generate_styled_kml features use_folders document_name).styles =
      (List.insertionSort keyLe
        (collectStyles (features.map fun f => (f, classify f.tags)))).map
        (fun e => build_style_element e.1 e.2.1 e.2.2) := rfl

/-- The emitted document body, unfolded. -/
theorem gen_items_eq (features : List Feature) (use_folders : Bool)
    (document_name : String) :
    (generate_styled_kml features use_folders document_name).items =
      (List.insertionSort keyLe
        (groupByCategory (features.map fun f => (f, classify f.tags)))).flatMap
        (fun ci =>
          let pms := ci.2.map (fun fc =>
            build_placemark fc.1 fc.2 (get_style fc.2.category fc.2.subcategory)
              (style_id fc.2.category fc.2.subcategory))
          if use_folders then [DocItem.folder (folderLabel ci.1) pms]
          else pms.map DocItem.placemark) := rfl

/-- The ids of the emitted style blocks are the sorted keys of the
needed-styles dict. -/
theorem gen_style_ids_eq (features : List Feature) (use_folders : Bool)
    (document_name : String) :
    (generate_styled_kml features use_folders document_name).styles.map
        (fun e => e.id) =
      (List.insertionSort keyLe
        (collectStyles (features.map fun f => (f, classify f.tags)))).map
        Prod.fst := by
  rw [gen_styles_eq, List.map_map]
  exact List.map_congr_left (fun p _ => rfl)

/-- The ids of the emitted style blocks are strictly sorted. -/
theorem gen_style_ids_sorted (features : List Feature) (use_folders : Bool)
    (document_name : String) :
    ((generate_styled_kml features use_folders document_name).styles.map
      (fun e => e.id)).Pairwise (· < ·) := by
  rw [gen_style_ids_eq]
  exact sorted_keys_pairwise_lt _ (collectStyles_keys_nodup _)

/-- A style id is emitted iff some record needs it. -/
theorem gen_style_ids_mem (features : List Feature) (use_folders : Bool)
    (document_name : String) (sid : String) :
    sid ∈ (generate_styled_kml features use_folders document_name).styles.map
        (fun e => e.id) ↔
      ∃ f ∈ features, styleIdOf f = sid := by
  rw [gen_style_ids_eq]
  rw [((List.perm_insertionSort keyLe _).map Prod.fst).mem_iff]
  rw [collectStyles_mem_keys]
  constructor
  · rintro ⟨fc, hfc, hsid⟩
    rcases List.mem_map.mp hfc with ⟨f, hf, rfl⟩
    exact ⟨f, hf, hsid⟩
  · rintro ⟨f, hf, hsid⟩
    exact ⟨(f, classify f.tags), List.mem_map.mpr ⟨f, hf, rfl⟩, hsid⟩

/-- Every emitted style block is built from the first record in input
order bearing its id (first-seen geometry kind wins). -/
theorem gen_style_el_first_seen (features : List Feature) (use_folders : Bool)
    (document_name : String) :
    ∀ el ∈ (generate_styled_kml features use_folders document_name).styles,
      ∃ f, features.find? (fun f2 => styleIdOf f2 == el.id) = some f ∧
        el = build_style_element el.id
          (get_style (classify f.tags).category (classify f.tags).subcategory)
          f.geometry_type := by
  intro el hel
  rw [gen_styles_eq] at hel
  rcases List.mem_map.mp hel with ⟨p, hp, rfl⟩
  have hlook := mem_sort_lookup (collectStyles_keys_nodup
    (features.map fun f => (f, classify f.tags))) hp
  rw [collectStyles_lookup] at hlook
  rcases Option.map_eq_some'.mp hlook with ⟨fc, hfind, hval⟩
  rw [List.find?_map] at hfind
  rcases Option.map_eq_some'.mp hfind with ⟨f, hfind2, hfc⟩
  refine ⟨f, ?_, ?_⟩
  · exact hfind2
  · have h1 : p.2.1 = get_style (classify f.tags).category (classify f.tags).subcategory := by
      rw [← hval, ← hfc]
    have h2 : p.2.2 = f.geometry_type := by
      rw [← hval, ← hfc]
    show build_style_element p.1 p.2.1 p.2.2 = _
    rw [h1, h2]
    exact rfl

/-- Congruence for `flatMap`. -/
theorem flatMap_congr' {A B : Type} {f g : A → List B} :
    ∀ l : List A, (∀ a ∈ l, f a = g a) → l.flatMap f = l.flatMap g := by
  intro l
  induction l with
  | nil => intro _; rfl
  | cons a rest ih =>
    intro h
    simp [List.flatMap_cons, h a (List.mem_cons_self a rest),
      ih (fun b hb => h b (List.mem_cons_of_mem _ hb))]

/-- The emitted categories are strictly sorted. -/
theorem sortedCategories_pairwise_lt (features : List Feature) :
    (sortedCategories features).Pairwise (· < ·) :=
  sorted_keys_pairwise_lt _ (groupByCategory_keys_nodup _)

/-- A category group is emitted iff some record classifies into it. -/
theorem sortedCategories_mem (features : List Feature) (c : String) :
    c ∈ sortedCategories features ↔
      ∃ f ∈ features, (classify f.tags).category = c := by
  rw [sortedCategories, ((List.perm_insertionSort keyLe _).map Prod.fst).mem_iff,
    groupByCategory_mem_keys]
  constructor
  · rintro ⟨fc, hfc, hcat⟩
    rcases List.mem_map.mp hfc with ⟨f, hf, rfl⟩
    exact ⟨f, hf, hcat⟩
  · rintro ⟨f, hf, hcat⟩
    exact ⟨(f, classify f.tags), List.mem_map.mpr ⟨f, hf, rfl⟩, hcat⟩

/-- The document body, per emitted category: records of that category in
their original input order. -/
theorem gen_items_keys (features : List Feature) (use_folders : Bool)
    (document_name : String) :
    (generate_styled_kml features use_folders document_name).items =
      (sortedCategories features).flatMap (fun c =>
        let pms := (features.filter
          (fun f => (classify f.tags).category == c)).map placemarkOf
        if use_folders then [DocItem.folder (folderLabel c) pms]
        else pms.map DocItem.placemark) := by
  rw [gen_items_eq, sortedCategories]
  rw [flatMap_congr_keys _
    (fun c => (features.map fun f => (f, classify f.tags)).filter
      (fun fc => fc.2.category == c)) _
    (fun p hp => by
      have hl := mem_sort_lookup (groupByCategory_keys_nodup
        (features.map fun f => (f, classify f.tags))) hp
      have hgd : (List.lookup p.1 (groupByCategory
          (features.map fun f => (f, classify f.tags)))).getD [] = p.2 := by
        rw [hl]; rfl
      rw [← hgd, groupByCategory_getD])]
  refine flatMap_congr' _ (fun c _ => ?_)
  have hfilter : (features.map fun f => (f, classify f.tags)).filter
      (fun fc => fc.2.category == c) =
      (features.filter (fun f => (classify f.tags).category == c)).map
        (fun f => (f, classify f.tags)) :=
    List.filter_map _ features
  rw [hfilter, List.map_map]
  rfl

/-- With folders enabled, the body is one folder per sorted category. -/
theorem gen_items_folders (features : List Feature) (document_name : String) :
    (generate_styled_kml features true document_name).items =
      (sortedCategories features).map (fun c =>
        DocItem.folder (folderLabel c)
          ((features.filter
            (fun f => (classify f.tags).category == c)).map placemarkOf)) := by
  rw [gen_items_keys]
  simp only [if_pos trivial]
  exact flatMap_singleton_eq_map _ _

/-- With folders disabled, the body is the flat concatenation of the
per-category placemark runs, in sorted category order. -/
theorem gen_items_flat (features : List Feature) (document_name : String) :
    (generate_styled_kml features false document_name).items =
      (sortedCategories features).flatMap (fun c =>
        (features.filter (fun f => (classify f.tags).category == c)).map
          (fun f => DocItem.placemark (placemarkOf f))) := by
  rw [gen_items_keys]
  refine flatMap_congr' _ (fun c _ => ?_)
  simp [List.map_map]

/-- All placemarks of the generated document, with or without folders:
per sorted category, the records of that category in input order. -/
theorem docPlacemarks_eq (features : List Feature) (use_folders : Bool)
    (document_name : String) :
    docPlacemarks (generate_styled_kml features use_folders document_name) =
      (sortedCategories features).flatMap (fun c =>
        (features.filter (fun f => (classify f.tags).category == c)).map
          placemarkOf) := by
  rw [docPlacemarks, gen_items_keys, List.flatMap_assoc]
  refine flatMap_congr' _ (fun c _ => ?_)
  cases use_folders with
  | true => simp
  | false =>
    simp only [Bool.false_eq_true, if_false, List.flatMap_map]
    exact flatMap_singleton_eq_map _ _

/-- Every placemark of the document is built from some input record. -/
theorem mem_docPlacemarks (features : List Feature) (use_folders : Bool)
    (document_name : String) (pm : Placemark) :
    pm ∈ docPlacemarks (generate_styled_kml features use_folders document_name) →
      ∃ f ∈ features, pm = placemarkOf f := by
  rw [docPlacemarks_eq]
  intro h
  rcases List.mem_flatMap.mp h with ⟨c, _, hpm⟩
  rcases List.mem_map.mp hpm with ⟨f, hf, rfl⟩
  exact ⟨f, List.mem_of_mem_filter hf, rfl⟩

/-! ## Sample features used by witnesses and counterexamples -/

/-- A line record classifying as ("road", "motorway"). -/
def sampleRoad : Feature := ⟨"A", "LineString", 1, [("highway", "motorway")], ""⟩

/-- A polygon record classifying as ("building", "general"). -/
def sampleBuilding : Feature := ⟨"B", "Polygon", 2, [("building", "yes")], ""⟩

/-- The style block the assembler emits for `sampleRoad`. -/
def sampleStyleEl : StyleEl :=
  build_style_element "style-road-motorway" (get_style "road" "motorway") "LineString"

/-- C6: for every record sequence the assembler emits exactly one style
block per distinct style id of the classified records (strictly sorted ids
with one block each), the blocks appear sorted by style id for every input
order, and each block's geometry-kind variant is determined by the first
record in input order bearing that id. -/
theorem style_blocks_unique_sorted_first_seen (features : List Feature)
    (use_folders : Bool) (document_name : String) :
    ((generate_styled_kml features use_folders document_name).styles.map
      (fun e => e.id)).Pairwise (· < ·) ∧
    (∀ sid, sid ∈ (generate_styled_kml features use_folders document_name).styles.map
        (fun e => e.id) ↔ ∃ f ∈ features, styleIdOf f = sid) ∧
    (∀ el ∈ (generate_styled_kml features use_folders document_name).styles,
      ∃ f, features.find? (fun f2 => styleIdOf f2 == el.id) = some f ∧
        el = build_style_element el.id
          (get_style (classify f.tags).category (classify f.tags).subcategory)
          f.geometry_type) :=
  ⟨gen_style_ids_sorted features use_folders document_name,
    fun sid => gen_style_ids_mem features use_folders document_name sid,
    gen_style_el_first_seen features use_folders document_name⟩

/-- Witness for C6 at a one-record input whose style block is emitted. -/
theorem style_blocks_unique_sorted_first_seen_witness :
    ∃ f, [sampleRoad].find? (fun f2 => styleIdOf f2 == sampleStyleEl.id) = some f ∧
      sampleStyleEl = build_style_element sampleStyleEl.id
        (get_style (classify f.tags).category (classify f.tags).subcategory)
        f.geometry_type :=
  (style_blocks_unique_sorted_first_seen [sampleRoad] true "T").2.2
    sampleStyleEl (by decide)

/-- C7: with folder grouping, the assembler emits one group per category
in sorted category order (exactly the categories present), and within each
category's group the records appear in their original input order (a
filter of the input list preserves input order). -/
theorem category_groups_sorted_stable_within (features : List Feature)
    (document_name : String) :
    (sortedCategories features).Pairwise (· < ·) ∧
    (∀ c, c ∈ sortedCategories features ↔
      ∃ f ∈ features, (classify f.tags).category = c) ∧
    (generate_styled_kml features true document_name).items =
      (sortedCategories features).map (fun c =>
        DocItem.folder (folderLabel c)
          ((features.filter
            (fun f => (classify f.tags).category == c)).map placemarkOf)) :=
  ⟨sortedCategories_pairwise_lt features, sortedCategories_mem features,
    gen_items_folders features document_name⟩

/-- Witness for C7 at a two-record input of distinct categories. -/
theorem category_groups_sorted_stable_within_witness :
    (generate_styled_kml [sampleRoad, sampleBuilding] true "T").items =
      (sortedCategories [sampleRoad, sampleBuilding]).map (fun c =>
        DocItem.folder (folderLabel c)
          (([sampleRoad, sampleBuilding].filter
            (fun f => (classify f.tags).category == c)).map placemarkOf)) :=
  (category_groups_sorted_stable_within [sampleRoad, sampleBuilding] "T").2.2

/-- C8: every placemark of the output document references, via its
styleUrl, the id of exactly one emitted document-level style block. -/
theorem placemark_style_reference_resolves (features : List Feature)
    (use_folders : Bool) (document_name : String) :
    ∀ pm ∈ docPlacemarks (generate_styled_kml features use_folders document_name),
      ∃ el ∈ (generate_styled_kml features use_folders document_name).styles,
        pm.styleUrl = "#" ++ el.id ∧
        ∀ el2 ∈ (generate_styled_kml features use_folders document_name).styles,
          pm.styleUrl = "#" ++ el2.id → el2 = el := by
  intro pm hpm
  rcases mem_docPlacemarks features use_folders document_name pm hpm with ⟨f, hf, rfl⟩
  have hurl : (placemarkOf f).styleUrl = "#" ++ styleIdOf f := rfl
  have hmem : styleIdOf f ∈
      (generate_styled_kml features use_folders document_name).styles.map
        (fun e => e.id) :=
    (gen_style_ids_mem features use_folders document_name (styleIdOf f)).mpr
      ⟨f, hf, rfl⟩
  rcases List.mem_map.mp hmem with ⟨el, helmem, helid⟩
  refine ⟨el, helmem, by rw [hurl, helid], ?_⟩
  intro el2 hel2 hurl2
  have hnd : ((generate_styled_kml features use_folders document_name).styles.map
      (fun e => e.id)).Nodup :=
    (gen_style_ids_sorted features use_folders document_name).imp
      (fun h => ne_of_lt h)
  have hid : el2.id = el.id := by
    have h1 : "#" ++ styleIdOf f = "#" ++ el2.id := by rw [← hurl, hurl2]
    have h2 := str_append_left_cancel h1
    rw [← h2, helid]
  exact List.inj_on_of_nodup_map hnd hel2 helmem hid

/-- Witness for C8 at a one-record document. -/
theorem placemark_style_reference_resolves_witness :
    ∃ el ∈ (generate_styled_kml [sampleRoad] true "T").styles,
      (placemarkOf sampleRoad).styleUrl = "#" ++ el.id ∧
      ∀ el2 ∈ (generate_styled_kml [sampleRoad] true "T").styles,
        (placemarkOf sampleRoad).styleUrl = "#" ++ el2.id → el2 = el :=
  placemark_style_reference_resolves [sampleRoad] true "T"
    (placemarkOf sampleRoad) (by decide)

/-- C10: with folder grouping disabled all placemarks are emitted flat
(bare placemark entries) into the document, ordered by sorted category and
by original input order only within each category; on a concrete
two-record input of distinct categories the flat output differs from the
overall input order. -/
theorem flat_output_sorted_by_category_not_input_order
    (features : List Feature) (document_name : String) :
    ((generate_styled_kml features false document_name).items =
      (sortedCategories features).flatMap (fun c =>
        (features.filter (fun f => (classify f.tags).category == c)).map
          (fun f => DocItem.placemark (placemarkOf f))) ∧
      (sortedCategories features).Pairwise (· < ·)) ∧
    (generate_styled_kml [sampleRoad, sampleBuilding] false "T").items ≠
      [sampleRoad, sampleBuilding].map (fun f => DocItem.placemark (placemarkOf f)) :=
  ⟨⟨gen_items_flat features document_name, sortedCategories_pairwise_lt features⟩,
    by decide⟩

end OPTRefactor
